import Mathlib

/-!
Verification of the chatty-shell terminal rendering and interaction engine
(`chatty_shell/frontend/view.py`) against its natural-language specification.

The Python `View` class is embedded shallowly: its mutable fields become a
`ViewState` record, each handler becomes a pure function from state to state
(plus the strings it pushes onto the outbound human queue, the text it copies
to the clipboard, or the exception it raises, made explicit with
`PyResult`/`StepOut`).  Python integers are `Int`; Python lists are `List`;
a Python `dict` of command/output pairs is a `List (String × String)` in
insertion order; raising an exception is `PyResult.err` carrying the
exception's name.
-/

/-- Characters stripped by Python `str.strip()` (the ASCII whitespace set). -/
def pyIsSpace (c : Char) : Bool :=
  c = ' ' || c = '\t' || c = '\n' || c = '\r' || c = '\x0b' || c = '\x0c'

/-- Python `s.strip()`: drop leading and trailing whitespace. -/
def pyStrip (s : String) : String :=
  String.mk (((s.data.dropWhile pyIsSpace).reverse.dropWhile pyIsSpace).reverse)

/-- Python `s[:n]` for an `Int` index: a nonnegative `n` keeps the first `n`
characters; a negative `n` drops the last `|n|` characters. -/
def pyTake (n : Int) (s : String) : String :=
  if 0 ≤ n then String.mk (s.data.take n.toNat)
  else String.mk (s.data.take (s.length - n.natAbs))

/-- Python `c * n` string repetition: empty for `n ≤ 0`. -/
def pyRepeat (n : Int) (s : String) : String :=
  String.join (List.replicate n.toNat s)

/-- Structural splitter over the character list: break at every character
satisfying `p`, keeping empty segments (the behavior of `str.split` /
`String.split`); defined structurally so that it reduces in the kernel. -/
def splitChars (p : Char → Bool) : List Char → List (List Char)
  | [] => [[]]
  | c :: cs =>
    if p c then [] :: splitChars p cs
    else
      match splitChars p cs with
      | [] => [[c]]
      | seg :: rest => (c :: seg) :: rest

/-- `String.split` on a character predicate, via `splitChars`. -/
def strSplit (p : Char → Bool) (s : String) : List String :=
  (splitChars p s.data).map String.mk

/-- Python `s.splitlines()` restricted to `'\n'` separators: like
`split` on `'\n'`, except that the empty string yields no lines and a
trailing newline does not produce a final empty line. -/
def pySplitlines (s : String) : List String :=
  if s.data = [] then []
  else
    let parts := strSplit (fun c => c = '\n') s
    if s.data.getLast? = some '\n' then parts.dropLast else parts

/-- Python `s[:-1]`: drop the last character (no-op on the empty string). -/
def strDropLast (s : String) : String :=
  String.mk s.data.dropLast

/-- Break one overlong word into chunks of at most `width` characters
(fuel-driven so that it reduces in the kernel; `fuel = length` suffices). -/
def chunksAux (width : Nat) : Nat → List Char → List (List Char)
  | _, [] => []
  | 0, l => [l]
  | fuel + 1, l =>
    if l.length ≤ width then [l]
    else l.take width :: chunksAux width fuel (l.drop width)

/-- Split a paragraph into its whitespace-separated words. -/
def splitWords (s : String) : List String :=
  (strSplit pyIsSpace s).filter (fun w => w ≠ "")

/-- Pre-break words longer than `width` into `width`-sized chunks. -/
def preChunk (width : Nat) (ws : List String) : List String :=
  ws.flatMap (fun w => (chunksAux width w.length w.data).map String.mk)

/-- Greedy line packing: add each word to the current line while it fits
in `width` columns (one space between words), else start a new line. -/
def pack (width : Nat) (cur : String) : List String → List String
  | [] => if cur = "" then [] else [cur]
  | w :: ws =>
    if cur = "" then pack width w ws
    else if cur.length + 1 + w.length ≤ width then pack width (cur ++ " " ++ w) ws
    else cur :: pack width w ws

/-- Greedy word-wrap of one paragraph, the model of Python
`textwrap.wrap(para, width) or [""]` as used throughout `view.py`:
break only at whitespace, force-break words longer than `width`, and
yield a single blank line for an empty (or all-whitespace) paragraph. -/
def wrapPara (width : Nat) (para : String) : List String :=
  let ls := pack width "" (preChunk width (splitWords para))
  if ls = [] then [""] else ls

/-- The render-time scroll clamp of `View._draw_chat` (view.py:186-189) and
`View._draw_sidebar` (view.py:213-217):
`offset = min(max(0, total - visible), max(0, offset))`. -/
def clampOffset (offset total visible : Int) : Int :=
  min (max 0 (total - visible)) (max 0 offset)

/-- Result of running a piece of Python code that may raise: either a value
or the raised exception's name. -/
inductive PyResult (A : Type) where
  | ok (val : A)
  | err (e : String)
deriving DecidableEq

/-- Modelled from the spec: the Line Flattener `wrap_message` lives in
`chatty_shell/frontend/ascii.py`, which is not under `src/` (only its caller
`View._flatten_chat` is).  Per spec section 4.1 a message is split on embedded
newlines into paragraphs, each paragraph greedily word-wrapped to `width`
columns; lines of a delimited code span (the delimiter is modelled as a fence
line consisting of three backticks) are tagged `isCode = true` and framed with
the two-character left/right border, which is excluded from the wrap-width
budget of the inner text; the fence lines themselves produce no output. -/
def wrapBody (width : Nat) : Bool → List String → List (String × Bool)
  | _, [] => []
  | inCode, l :: ls =>
    if l = "```" then wrapBody width (!inCode) ls
    else if inCode then
      ((wrapPara width l).map (fun t => ("│ " ++ t ++ " │", true))) ++
        wrapBody width true ls
    else
      ((wrapPara width l).map (fun t => (t, false))) ++ wrapBody width false ls

/-- Modelled from the spec (see `wrapBody`): `wrap_message(msg, width, who)`
returns the wrapped `(line, is_code)` pairs of one message followed by one
blank separator line (spec section 4.1). -/
def wrapMessage (msg : String) (width : Nat) (who : String) : List (String × Bool) :=
  let _ := who
  wrapBody width false (strSplit (fun c => c = '\n') msg) ++ [("", false)]

/-- The mutable fields of the Python `View` object (view.py:24-49 together
with the geometry fields set in `_init_windows`, view.py:104-133). -/
structure ViewState where
  messages : List (String × String)
  input_buffer : String
  chat_offset : Int
  chat_scroll_speed : Int
  sidebar_offset : Int
  tool_calls : List (List (String × String))
  show_debug : Bool
  height : Int
  width : Int
  sidebar_w : Int
  chat_w : Int
  chat_h : Int
  input_h : Int
  last_chat_map : List (String × String × Bool)
deriving DecidableEq

/-- Color attribute id for `default_attr` (curses color pair 1). -/
def defaultAttr : Nat := 1

/-- Color attribute id for `code_attr` (curses color pair 2). -/
def codeAttr : Nat := 2

/-- Color attribute id for `cmd_attr` (curses color pair 3). -/
def cmdAttr : Nat := 3

/-- `View._flatten_chat` (view.py:280-290): each message is wrapped at
`chat_w - 2` and every `(text, is_code)` pair becomes the 3-tuple
`(text, who, is_code)`.  Note: the tuples carry no source-message index. -/
def flattenChat (s : ViewState) : List (String × String × Bool) :=
  let max_inner := (s.chat_w - 2).toNat
  s.messages.flatMap (fun m =>
    (wrapMessage m.1 max_inner m.2).map (fun p => (p.1, m.2, p.2)))

/-- `View._flatten_sidebar` (view.py:292-308): for each tool call and each
`(cmd, output)` item, one truncated command line, the truncated and padded
output lines, and one blank padding line. -/
def flattenSidebar (s : ViewState) : List (String × Nat) :=
  let max_inner := s.sidebar_w - 2
  s.tool_calls.flatMap (fun call =>
    call.flatMap (fun item =>
      [(pyTake max_inner item.1, cmdAttr)] ++
        (pySplitlines item.2).map (fun ln =>
          let text := pyTake max_inner ln
          (text ++ pyRepeat (max_inner - (text.length : Int)) " ", codeAttr)) ++
        [(pyRepeat max_inner " ", defaultAttr)]))

/-- `View._max_chat_offset` (view.py:328-334):
`max(0, len(flatten_chat) - (chat_h - 2))`. -/
def maxChatOffset (s : ViewState) : Int :=
  max 0 (((flattenChat s).length : Int) - (s.chat_h - 2))

/-- `View._max_sidebar_offset` (view.py:336-342).  Note: the source uses
`visible = self.chat_h - 2`, not the sidebar's own height. -/
def maxSidebarOffset (s : ViewState) : Int :=
  max 0 (((flattenSidebar s).length : Int) - (s.chat_h - 2))

/-- ncurses `BUTTON4_PRESSED` (wheel up). -/
def button4Mask : Nat := 65536

/-- ncurses `BUTTON5_PRESSED` (wheel down). -/
def button5Mask : Nat := 2097152

/-- ncurses `BUTTON2_PRESSED` (middle click). -/
def button2Mask : Nat := 64

/-- One mouse event as reported by `curses.getmouse()`: coordinates and the
button mask. -/
structure MouseEvent where
  mx : Int
  my : Int
  b : Nat
deriving DecidableEq

/-- The middle-click branch of `View._handle_mouse` (view.py:421-435),
returning the unchanged state together with the text copied to the clipboard,
or the exception raised.  The source computes
`msg_idx = self.last_chat_map[line_idx][2]` — but `last_chat_map` entries are
the 3-tuples of `_flatten_chat`, so `[2]` is the `is_code` boolean, which as a
Python list index means 0 (False) or 1 (True).  The code-copy comprehension
`for text, _, idx, code_flag in self.last_chat_map` unpacks each 3-tuple into
four targets, which raises `ValueError` as soon as the list is non-empty. -/
def middleClick (s : ViewState) (my : Int) : PyResult (ViewState × Option String) :=
  let line_idx := my - 1 + s.chat_offset
  if 0 ≤ line_idx ∧ line_idx < ((s.last_chat_map.length : Int)) then
    match s.last_chat_map.get? line_idx.toNat with
    | none => PyResult.err "IndexError"
    | some entry =>
      let is_code := entry.2.2
      if is_code then
        if s.last_chat_map.isEmpty then PyResult.ok (s, some "")
        else PyResult.err "ValueError"
      else
        let msg_idx : Nat := if is_code then 1 else 0
        match s.messages.get? msg_idx with
        | none => PyResult.err "IndexError"
        | some msg => PyResult.ok (s, some msg.1)
  else PyResult.ok (s, none)

/-- `View._handle_mouse` (view.py:402-448) after a successful
`curses.getmouse()`: wheel and middle-click handling over the chat rectangle
(rows `< chat_h`, columns `< chat_w`) and the sidebar rectangle (rows
`< chat_h`, columns `chat_w ≤ mx < chat_w + sidebar_w`). -/
def handleMouse (s : ViewState) (m : MouseEvent) : PyResult (ViewState × Option String) :=
  if 0 ≤ m.my ∧ m.my < s.chat_h ∧ 0 ≤ m.mx ∧ m.mx < s.chat_w then
    if Nat.land m.b button4Mask ≠ 0 then
      PyResult.ok ({ s with chat_offset := max 0 (s.chat_offset - s.chat_scroll_speed) }, none)
    else if Nat.land m.b button5Mask ≠ 0 then
      PyResult.ok ({ s with chat_offset := min (maxChatOffset s) (s.chat_offset + s.chat_scroll_speed) }, none)
    else if Nat.land m.b button2Mask ≠ 0 then
      middleClick s m.my
    else PyResult.ok (s, none)
  else if 0 ≤ m.my ∧ m.my < s.chat_h ∧ s.chat_w ≤ m.mx ∧ m.mx < s.chat_w + s.sidebar_w then
    if Nat.land m.b button4Mask ≠ 0 then
      PyResult.ok ({ s with sidebar_offset := max 0 (s.sidebar_offset - s.chat_scroll_speed) }, none)
    else if Nat.land m.b button5Mask ≠ 0 then
      PyResult.ok ({ s with sidebar_offset := min (maxSidebarOffset s) (s.sidebar_offset + s.chat_scroll_speed) }, none)
    else PyResult.ok (s, none)
  else PyResult.ok (s, none)

/-- `View._send_human` (view.py:387-400): if the buffer is non-empty after
stripping, push the (unstripped) buffer, append it as a human message, clear
the buffer, and re-pin the chat offset if it was at the bottom.  The second
component is the list of strings pushed onto the human queue. -/
def sendHuman (s : ViewState) : ViewState × List String :=
  if pyStrip s.input_buffer = "" then (s, [])
  else
    let s1 : ViewState :=
      { s with messages := s.messages ++ [(s.input_buffer, "human")], input_buffer := "" }
    if s.chat_offset = maxChatOffset s then
      ({ s1 with chat_offset := maxChatOffset s1 }, [s.input_buffer])
    else (s1, [s.input_buffer])

/-- Outcome of dispatching one key (or a whole batch): the new state with the
strings pushed onto the human queue, process exit (`exit()` on ESC), or an
uncaught Python exception. -/
inductive StepOut where
  | ok (s : ViewState) (puts : List String)
  | exit
  | err (e : String)
deriving DecidableEq

/-- The `KEY_MOUSE` branch of `View._handle_input` (view.py:361-362): a
failed `curses.getmouse()` (modelled by `none`) is swallowed, otherwise the
mouse handler runs and its clipboard copy, if any, is discarded here. -/
def mouseStep (s : ViewState) (mev : Option MouseEvent) : StepOut :=
  match mev with
  | none => StepOut.ok s []
  | some m =>
    match handleMouse s m with
    | PyResult.ok p => StepOut.ok p.1 []
    | PyResult.err e => StepOut.err e

/-- One iteration of the key loop of `View._handle_input` (view.py:359-385):
`burst` is `len(keys) > 1`.  Key codes: `KEY_MOUSE = 409`, `KEY_F2 = 266`,
Enter is `KEY_ENTER = 343`, `10` or `13`, backspace is `KEY_BACKSPACE = 263`,
`127` or `8`, ESC is `27`, and `32 ≤ key < 256` appends `chr(key)`. -/
def stepKey (burst : Bool) (mev : Option MouseEvent) (s : ViewState) (key : Int) : StepOut :=
  if key = 409 then mouseStep s mev
  else if key = 266 then StepOut.ok { s with show_debug := true } []
  else if key = 343 ∨ key = 10 ∨ key = 13 then
    if burst then StepOut.ok { s with input_buffer := s.input_buffer ++ " " } []
    else StepOut.ok (sendHuman s).1 (sendHuman s).2
  else if key = 263 ∨ key = 127 ∨ key = 8 then
    StepOut.ok { s with input_buffer := strDropLast s.input_buffer } []
  else if key = 27 then StepOut.exit
  else if 32 ≤ key ∧ key < 256 then
    StepOut.ok { s with input_buffer := s.input_buffer ++ String.mk [Char.ofNat key.toNat] } []
  else StepOut.ok s []

/-- The key loop of `View._handle_input` over the collected batch, threading
the state and accumulating queue pushes; `exit()` or an exception abandons
the rest of the batch. -/
def foldStep (burst : Bool) (mev : Option MouseEvent) : ViewState → List Int → StepOut
  | s, [] => StepOut.ok s []
  | s, k :: ks =>
    match stepKey burst mev s k with
    | StepOut.ok s1 puts =>
      match foldStep burst mev s1 ks with
      | StepOut.ok s2 puts2 => StepOut.ok s2 (puts ++ puts2)
      | r => r
    | r => r

/-- `View._handle_input` (view.py:344-385): collect all pending keys (given
here as `keys`), return immediately when there are none, and otherwise
dispatch each with `burst = len(keys) > 1`. -/
def handleInput (s : ViewState) (keys : List Int) (mev : Option MouseEvent) : StepOut :=
  if keys = [] then StepOut.ok s []
  else foldStep (decide (1 < keys.length)) mev s keys

/-- The tool-call component of one agent→view payload: a single mapping, a
sequence of mappings, or a value (such as `None`) that is neither — the three
shapes distinguishable by the `isinstance(calls, dict)` test plus
`list.extend`'s iteration in `View._drain_ai_queue`. -/
inductive ToolCallsField where
  | dict (d : List (String × String))
  | seq (l : List (List (String × String)))
  | nonIterable
deriving DecidableEq

/-- One iteration of the drain loop of `View._drain_ai_queue`
(view.py:316-323): a `dict` is appended whole, anything else is passed to
`self.tool_calls.extend(calls)` — which for a non-iterable value raises
`TypeError` before the response is appended. -/
def drainPayloadStep (s : ViewState) (calls : ToolCallsField) (msg : String) :
    PyResult ViewState :=
  match calls with
  | ToolCallsField.dict d =>
    let s1 := { s with tool_calls := s.tool_calls ++ [d] }
    PyResult.ok { s1 with messages := s1.messages ++ [(msg, "ai")] }
  | ToolCallsField.seq l =>
    let s1 := { s with tool_calls := s.tool_calls ++ l }
    PyResult.ok { s1 with messages := s1.messages ++ [(msg, "ai")] }
  | ToolCallsField.nonIterable => PyResult.err "TypeError"

/-- The drain loop of `View._drain_ai_queue` over the queued payloads. -/
def drainLoop : ViewState → List (ToolCallsField × String) → PyResult ViewState
  | s, [] => PyResult.ok s
  | s, p :: ps =>
    match drainPayloadStep s p.1 p.2 with
    | PyResult.ok s1 => drainLoop s1 ps
    | PyResult.err e => PyResult.err e

/-- `View._drain_ai_queue` (view.py:310-326): remember whether the chat pane
was at the bottom, drain every queued payload, then re-pin the offset to the
new maximum if it was. -/
def drainAiQueue (s : ViewState) (q : List (ToolCallsField × String)) :
    PyResult ViewState :=
  match drainLoop s q with
  | PyResult.err e => PyResult.err e
  | PyResult.ok s0 =>
    if s.chat_offset = maxChatOffset s then
      PyResult.ok { s0 with chat_offset := maxChatOffset s0 }
    else PyResult.ok s0

/-- `View._recalculate_layout` (view.py:135-149): the new input-pane height is
the wrapped line count of the buffer at width `chat_w - 3`, plus two border
rows, capped at `height - 3`. -/
def recalcLayoutInputH (s : ViewState) : Int :=
  let inner_w := (s.chat_w - 3).toNat
  let lines := (strSplit (fun c => c = '\n') s.input_buffer).flatMap (wrapPara inner_w)
  min ((lines.length : Int) + 2) (s.height - 3)

/-- The strings written into the input window by `View._draw_input`
(view.py:226-253): the buffer is wrapped at `self.width - 3` (the TERMINAL
width, not the chat width), the last `input_h - 2` lines are kept, and the
first visible line is prefixed with the prompt, the rest with two spaces. -/
def drawInputLines (s : ViewState) : List String :=
  let inner_w := (s.width - 3).toNat
  let lines := (strSplit (fun c => c = '\n') s.input_buffer).flatMap (wrapPara inner_w)
  let display :=
    if s.input_h - 2 ≤ 0 then lines.drop (s.input_h - 2).natAbs
    else lines.drop (lines.length - (s.input_h - 2).toNat)
  match display with
  | [] => []
  | d :: ds => ("> " ++ d) :: ds.map (fun line => "  " ++ line)

/-! ### Concrete states used by the counterexamples and witnesses -/

/-- A representative view state right after `_init_windows` on a 100×24
terminal: `sidebar_w = max(20, 100 // 4) = 25`, `chat_w = 75`,
`input_h = 3`, `chat_h = 21` (spec section 8's geometry scenario). -/
def baseState : ViewState where
  messages := []
  input_buffer := ""
  chat_offset := 0
  chat_scroll_speed := 3
  sidebar_offset := 0
  tool_calls := []
  show_debug := false
  height := 24
  width := 100
  sidebar_w := 25
  chat_w := 75
  chat_h := 21
  input_h := 3
  last_chat_map := []

/-- A 20-column chat pane holding a plain message and a code-block message. -/
def st1base : ViewState :=
  { baseState with chat_w := 20,
                   messages := [("hi", "ai"), ("```\ncode\n```", "ai")] }

/-- `st1base` after `_draw_chat` stored the flattened lines in
`last_chat_map` (view.py:183-184). -/
def st1 : ViewState := { st1base with last_chat_map := flattenChat st1base }

/-- A 28-line command output, flattening to 30 sidebar lines. -/
def out28 : String := String.join (List.replicate 27 "x\n") ++ "x"

/-- A state whose sidebar holds one tool call with 28 output lines. -/
def st3 : ViewState := { baseState with tool_calls := [[("cmd", out28)]] }

/-- A wheel-down event at column 80, row 22: inside the full-height sidebar
(columns 75-99 of a 24-row terminal) but below the chat pane's 21 rows. -/
def mev3 : MouseEvent := { mx := 80, my := 22, b := button5Mask }

/-- A state whose input buffer is one 80-character word. -/
def st4base : ViewState := { baseState with input_buffer := String.mk (List.replicate 80 'a') }

/-- `st4base` after `_recalculate_layout` set the input height (to 4: the
buffer wraps into two lines at the layout width `chat_w - 3 = 72`). -/
def st4 : ViewState := { st4base with input_h := recalcLayoutInputH st4base }

/-- One well-formed payload: a single `{"ls": "a.txt"}` mapping plus the
response text (spec section 8's channel scenario). -/
def q5 : List (ToolCallsField × String) := [(ToolCallsField.dict [("ls", "a.txt")], "Done.")]

/-- The state `drainAiQueue` produces from `baseState` and `q5`. -/
def st5d : ViewState :=
  { baseState with messages := [("Done.", "ai")], tool_calls := [[("ls", "a.txt")]] }

/-- A state with a pending composed message. -/
def st7 : ViewState := { baseState with input_buffer := "hello" }

/-- A state whose input buffer is whitespace only. -/
def st8 : ViewState := { baseState with input_buffer := "  \t " }

/-! ### Claim theorems -/

/-- C6: for all integers `offset`, `totalLines`, `visibleRows`, the
render-time clamp `clampOffset` yields a value in
`[0, max 0 (totalLines - visibleRows)]` and is idempotent. -/
theorem clampOffset_range_idem (offset total visible : Int) :
    (0 ≤ clampOffset offset total visible ∧
      clampOffset offset total visible ≤ max 0 (total - visible)) ∧
    clampOffset (clampOffset offset total visible) total visible =
      clampOffset offset total visible := by
  unfold clampOffset
  omega

/-- C1 (code bug): in `st1` the flattened line at index 2 (screen row 3 with
scroll offset 0) is the code-tagged framed line `"│ code │"` of the second
message, yet the middle-click handler raises `ValueError` instead of copying
the border-stripped code: its copy comprehension unpacks the 3-tuples of
`last_chat_map` into four targets, and the `[2]` component it takes as the
source-message index is actually the `is_code` flag. -/
theorem middleClick_on_code_line_raises :
    st1.last_chat_map = flattenChat st1 ∧
    (flattenChat st1).get? 2 = some ("│ code │", "ai", true) ∧
    middleClick st1 3 = PyResult.err "ValueError" := by decide

/-- C2 (counterexample): a payload whose tool-call component is not iterable
(Python `None`) makes the drain step raise `TypeError` at
`self.tool_calls.extend(calls)` — it is not treated as an empty tool-call
list, and the response text is never appended. -/
theorem drain_malformed_payload_raises :
    drainAiQueue baseState [(ToolCallsField.nonIterable, "hi")] =
      PyResult.err "TypeError" := by decide

/-- C2 (amended): the drain step appends a mapping component as one tool-call
record and a sequence component element-wise, in both cases appending the
response as one AI message; a non-iterable component instead raises
`TypeError` before the response is appended. -/
theorem drainPayloadStep_shapes (s : ViewState) (d : List (String × String))
    (l : List (List (String × String))) (msg : String) :
    drainPayloadStep s (ToolCallsField.dict d) msg =
      PyResult.ok { s with tool_calls := s.tool_calls ++ [d],
                           messages := s.messages ++ [(msg, "ai")] } ∧
    drainPayloadStep s (ToolCallsField.seq l) msg =
      PyResult.ok { s with tool_calls := s.tool_calls ++ l,
                           messages := s.messages ++ [(msg, "ai")] } ∧
    drainPayloadStep s ToolCallsField.nonIterable msg = PyResult.err "TypeError" :=
  ⟨rfl, rfl, rfl⟩

/-- C3 (code bug): `st3`'s sidebar flattens to 30 lines on a 24-row terminal
(`visibleRows = 22`), so after a wheel-down at (column 80, row 22) — inside
the full-height sidebar rectangle — the claim's formula gives offset
`min(0 + 3, max(0, 30 - 22)) = 3`; but the handler's sidebar region check
stops at `chat_h = 21` rows, so the event changes nothing. -/
theorem sidebar_wheel_below_chat_h_ignored :
    (flattenSidebar st3).length = 30 ∧
    handleMouse st3 mev3 = PyResult.ok (st3, none) ∧
    min (st3.sidebar_offset + 3)
        (max 0 (((flattenSidebar st3).length : Int) - (st3.height - 2))) = 3 := by decide

/-- C4 (code bug): in `st4` (input height recomputed by the layout pass for
an 80-character buffer) the input pane draws a line of 82 characters —
`_draw_input` wraps at `self.width - 3 = 97` columns and prefixes the prompt
— which exceeds the input pane's interior width `chat_w - 2 = 73`. -/
theorem draw_input_line_exceeds_pane :
    st4.input_h = recalcLayoutInputH st4 ∧
    ((drawInputLines st4).any (fun t => decide ((st4.chat_w - 2) < (t.length : Int)))
      = true) := by decide

/-- The drain loop only appends to `tool_calls` and `messages`: it never
touches the chat scroll offset. -/
theorem drainLoop_chat_offset (q : List (ToolCallsField × String)) :
    ∀ s s1 : ViewState, drainLoop s q = PyResult.ok s1 →
      s1.chat_offset = s.chat_offset := by
  induction q with
  | nil =>
    intro s s1 h
    cases h
    rfl
  | cons p ps ih =>
    intro s s1 h
    unfold drainLoop at h
    cases hc : p.1 with
    | dict d =>
      rw [hc] at h
      exact (ih _ s1 h).trans rfl
    | seq l =>
      rw [hc] at h
      exact (ih _ s1 h).trans rfl
    | nonIterable =>
      rw [hc] at h
      cases h

/-- C5: if the chat offset equals the chat pane's maximum before a drain
that succeeds on a batch of at least one payload, it equals the new maximum
after; if it is strictly below the maximum before, it is unchanged after. -/
theorem drain_autoscroll (s : ViewState) (q : List (ToolCallsField × String))
    (s1 : ViewState) (_hq : q ≠ []) (hok : drainAiQueue s q = PyResult.ok s1) :
    (s.chat_offset = maxChatOffset s → s1.chat_offset = maxChatOffset s1) ∧
    (s.chat_offset < maxChatOffset s → s1.chat_offset = s.chat_offset) := by
  unfold drainAiQueue at hok
  cases hd : drainLoop s q with
  | err e =>
    rw [hd] at hok
    cases hok
  | ok s0 =>
    rw [hd] at hok
    dsimp only at hok
    by_cases hb : s.chat_offset = maxChatOffset s
    · rw [if_pos hb] at hok
      cases hok
      constructor
      · intro _
        rfl
      · intro hlt
        omega
    · rw [if_neg hb] at hok
      cases hok
      constructor
      · intro heq
        exact absurd heq hb
      · intro _
        exact drainLoop_chat_offset q s _ hd

/-- Witness for C5 at `baseState` (pinned to the bottom: offset `0 = maxOffset`)
and the single-payload batch `q5`. -/
theorem drain_autoscroll_witness :
    (baseState.chat_offset = maxChatOffset baseState →
      st5d.chat_offset = maxChatOffset st5d) ∧
    (baseState.chat_offset < maxChatOffset baseState →
      st5d.chat_offset = baseState.chat_offset) :=
  drain_autoscroll baseState q5 st5d (by decide) (by decide)

/-- C7: a single non-burst Enter (any of the codes `KEY_ENTER`, `10`, `13`)
on a buffer that is non-empty after stripping pushes exactly the buffer
string onto the human queue, appends it as one Human message, and clears the
buffer. -/
theorem single_enter_sends_nonempty (mev : Option MouseEvent) (s : ViewState)
    (key : Int) (hk : key = 343 ∨ key = 10 ∨ key = 13)
    (h : pyStrip s.input_buffer ≠ "") :
    ∃ s1 : ViewState,
      stepKey false mev s key = StepOut.ok s1 [s.input_buffer] ∧
      s1.messages = s.messages ++ [(s.input_buffer, "human")] ∧
      s1.input_buffer = "" := by
  have hstep : stepKey false mev s key = StepOut.ok (sendHuman s).1 (sendHuman s).2 := by
    rcases hk with rfl | rfl | rfl <;> rfl
  rw [hstep]
  unfold sendHuman
  rw [if_neg h]
  by_cases hb : s.chat_offset = maxChatOffset s
  · rw [if_pos hb]
    exact ⟨_, rfl, rfl, rfl⟩
  · rw [if_neg hb]
    exact ⟨_, rfl, rfl, rfl⟩

/-- Witness for C7: buffer `"hello"`, key code 10. -/
theorem single_enter_sends_nonempty_witness :
    ∃ s1 : ViewState,
      stepKey false none st7 10 = StepOut.ok s1 [st7.input_buffer] ∧
      s1.messages = st7.messages ++ [(st7.input_buffer, "human")] ∧
      s1.input_buffer = "" :=
  single_enter_sends_nonempty none st7 10 (Or.inr (Or.inl rfl)) (by decide)

/-- C8: a single non-burst Enter on a buffer that is empty or whitespace-only
pushes nothing and leaves the whole state — message store included —
unchanged. -/
theorem single_enter_empty_noop (mev : Option MouseEvent) (s : ViewState)
    (key : Int) (hk : key = 343 ∨ key = 10 ∨ key = 13)
    (h : pyStrip s.input_buffer = "") :
    stepKey false mev s key = StepOut.ok s [] := by
  have hstep : stepKey false mev s key = StepOut.ok (sendHuman s).1 (sendHuman s).2 := by
    rcases hk with rfl | rfl | rfl <;> rfl
  rw [hstep]
  unfold sendHuman
  rw [if_pos h]

/-- Witness for C8: whitespace-only buffer, key code 13. -/
theorem single_enter_empty_noop_witness :
    stepKey false none st8 13 = StepOut.ok st8 [] :=
  single_enter_empty_noop none st8 13 (Or.inr (Or.inr rfl)) (by decide)

/-- Every successful outcome of the middle-click handler leaves the view
state untouched: it only copies text. -/
theorem middleClick_state (s : ViewState) (my : Int) (r : ViewState) (c : Option String)
    (h : middleClick s my = PyResult.ok (r, c)) : r = s := by
  unfold middleClick at h
  dsimp only at h
  repeat' split at h
  all_goals cases h <;> rfl

/-- Every successful outcome of the mouse handler preserves the message
store and the tool-call history (only scroll offsets may change). -/
theorem handleMouse_state (s : ViewState) (m : MouseEvent) (r : ViewState) (c : Option String)
    (h : handleMouse s m = PyResult.ok (r, c)) :
    r.messages = s.messages ∧ r.tool_calls = s.tool_calls := by
  unfold handleMouse at h
  repeat' split at h
  all_goals first
    | (cases h <;> exact ⟨rfl, rfl⟩)
    | (have hr := middleClick_state s m.my r c h
       subst hr
       exact ⟨rfl, rfl⟩)

/-- The `KEY_MOUSE` step pushes nothing onto the human queue and preserves
the message store and tool-call history. -/
theorem mouseStep_state (s : ViewState) (mev : Option MouseEvent) (s1 : ViewState)
    (puts : List String) (h : mouseStep s mev = StepOut.ok s1 puts) :
    puts = [] ∧ s1.messages = s.messages ∧ s1.tool_calls = s.tool_calls := by
  unfold mouseStep at h
  cases mev with
  | none =>
    cases h
    exact ⟨rfl, rfl, rfl⟩
  | some m =>
    dsimp only at h
    cases hm : handleMouse s m with
    | ok p =>
      rw [hm] at h
      dsimp only at h
      cases h
      obtain ⟨h1, h2⟩ := handleMouse_state s m p.1 p.2 (by rw [hm])
      exact ⟨rfl, h1, h2⟩
    | err e =>
      rw [hm] at h
      cases h

/-- In a paste burst (`burst = true`), no single key step pushes anything
onto the human queue, and the message store and tool-call history are
preserved: `_send_human` is never reached. -/
theorem stepKey_burst_state (mev : Option MouseEvent) (s : ViewState) (k : Int)
    (s1 : ViewState) (puts : List String)
    (h : stepKey true mev s k = StepOut.ok s1 puts) :
    puts = [] ∧ s1.messages = s.messages ∧ s1.tool_calls = s.tool_calls := by
  unfold stepKey at h
  split_ifs at h
  all_goals first
    | exact mouseStep_state s mev s1 puts h
    | (cases h
       exact ⟨rfl, rfl, rfl⟩)
    | (exfalso; simp_all)

/-- Folding a burst batch pushes nothing and preserves the message store and
tool-call history. -/
theorem foldStep_burst_state (mev : Option MouseEvent) (ks : List Int) :
    ∀ (s s1 : ViewState) (puts : List String),
      foldStep true mev s ks = StepOut.ok s1 puts →
      puts = [] ∧ s1.messages = s.messages ∧ s1.tool_calls = s.tool_calls := by
  induction ks with
  | nil =>
    intro s s1 puts h
    cases h
    exact ⟨rfl, rfl, rfl⟩
  | cons k ks ih =>
    intro s s1 puts h
    unfold foldStep at h
    cases hk : stepKey true mev s k with
    | ok sa pa =>
      rw [hk] at h
      dsimp only at h
      cases hf : foldStep true mev sa ks with
      | ok sb pb =>
        rw [hf] at h
        dsimp only at h
        simp only [StepOut.ok.injEq] at h
        obtain ⟨hs, hp⟩ := h
        obtain ⟨ha1, ha2, ha3⟩ := stepKey_burst_state mev s k sa pa hk
        obtain ⟨hb1, hb2, hb3⟩ := ih sa sb pb hf
        refine ⟨?_, ?_, ?_⟩
        · rw [← hp, ha1, hb1]
          rfl
        · rw [← hs, hb2, ha2]
        · rw [← hs, hb3, ha3]
      | exit =>
        rw [hf] at h
        cases h
      | err e =>
        rw [hf] at h
        cases h
    | exit =>
      rw [hk] at h
      cases h
    | err e =>
      rw [hk] at h
      cases h

/-- C9: in a poll that collected more than one event (`burst = true` in
`handleInput`), every Enter/Return key appends exactly one literal space to
the input buffer with no queue push, and the whole batch pushes nothing onto
the human channel and leaves the message store (and tool-call history)
unchanged, whatever the buffer holds. -/
theorem burst_enter_appends_space (s : ViewState) (keys : List Int)
    (mev : Option MouseEvent) (h : 1 < keys.length) :
    (∀ (t : ViewState) (key : Int), key = 343 ∨ key = 10 ∨ key = 13 →
      stepKey true mev t key =
        StepOut.ok { t with input_buffer := t.input_buffer ++ " " } []) ∧
    (∀ (s1 : ViewState) (puts : List String),
      handleInput s keys mev = StepOut.ok s1 puts →
      puts = [] ∧ s1.messages = s.messages ∧ s1.tool_calls = s.tool_calls) := by
  constructor
  · intro t key hk
    rcases hk with rfl | rfl | rfl <;> rfl
  · intro s1 puts hh
    unfold handleInput at hh
    have hne : ¬keys = [] := by
      intro he
      subst he
      simp at h
    rw [if_neg hne] at hh
    have hb : decide (1 < keys.length) = true := decide_eq_true h
    rw [hb] at hh
    exact foldStep_burst_state mev keys s s1 puts hh

/-- Witness for C9: the two-key burst `[10, 32]` (Enter then space). -/
theorem burst_enter_appends_space_witness :
    (∀ (t : ViewState) (key : Int), key = 343 ∨ key = 10 ∨ key = 13 →
      stepKey true none t key =
        StepOut.ok { t with input_buffer := t.input_buffer ++ " " } []) ∧
    (∀ (s1 : ViewState) (puts : List String),
      handleInput baseState [10, 32] none = StepOut.ok s1 puts →
      puts = [] ∧ s1.messages = baseState.messages ∧
        s1.tool_calls = baseState.tool_calls) :=
  burst_enter_appends_space baseState [10, 32] none (by decide)

/-- C10: a key that is none of `KEY_MOUSE`, `KEY_F2`, Enter/Return,
backspace, ESC, and not in the printable range `32-255` falls through every
branch of the dispatcher: the state is returned untouched and nothing is
pushed. -/
theorem unhandled_key_noop (burst : Bool) (mev : Option MouseEvent) (s : ViewState)
    (key : Int) (h1 : key ≠ 409) (h2 : key ≠ 266)
    (h3 : ¬(key = 343 ∨ key = 10 ∨ key = 13))
    (h4 : ¬(key = 263 ∨ key = 127 ∨ key = 8))
    (h5 : key ≠ 27) (h6 : ¬(32 ≤ key ∧ key < 256)) :
    stepKey burst mev s key = StepOut.ok s [] := by
  unfold stepKey
  rw [if_neg h1, if_neg h2, if_neg h3, if_neg h4, if_neg h5, if_neg h6]

/-- Witness for C10: key code 259 (`KEY_UP`). -/
theorem unhandled_key_noop_witness :
    stepKey false none baseState 259 = StepOut.ok baseState [] :=
  unhandled_key_noop false none baseState 259 (by decide) (by decide) (by decide)
    (by decide) (by decide) (by decide)
